import Mathlib

/-!
Shallow embedding of the ChangerAI single-page image-editing application
(source: src/unnamed/part_000).

The application is a React component tree around a generative-image API.
We embed the UI state (`AppState`), the helper `isAuthError`, and the event
handlers (`handleFile`, `handleReset`, `handleDislike`, `applyFilter`,
`generateWithMask`, `generateNewBackground`, `enhancePrompt`,
`analyzeSceneRef`) as pure state transformers.  Asynchronous calls to the
external model are modelled by passing the call outcome (`GenOutcome`,
`TextOutcome`) as an explicit argument: the handler describes exactly the
state updates the source performs on each branch (success with or without
inline image data, auth error, other error, `finally` block).

Environment inputs that the browser supplies (`Date.now()`,
`toLocaleTimeString()`, the data URL produced by `FileReader.readAsDataURL`)
are ordinary parameters.
-/

namespace ChangerAI

/-! ## String helpers -/

/-- Test whether the list `t` is an initial segment of `s`. -/
def startsWithL : List Char → List Char → Bool
  | _, [] => true
  | [], _ :: _ => false
  | c :: cs, d :: ds => c == d && startsWithL cs ds

/-- Test whether `t` occurs contiguously inside `s`. -/
def containsL : List Char → List Char → Bool
  | [], t => t.isEmpty
  | c :: cs, t => startsWithL (c :: cs) t || containsL cs t

/-- String containment: JavaScript `s.includes(t)`. -/
def strContains (s t : String) : Bool :=
  containsL s.data t.data

/-- JavaScript `s.startsWith(t)`. -/
def strStartsWith (s t : String) : Bool :=
  startsWithL s.data t.data

/-- JavaScript `s.toLowerCase()` (character-wise lowering). -/
def toLowerStr (s : String) : String :=
  ⟨s.data.map Char.toLower⟩

/-- Strip leading and trailing whitespace from a character list. -/
def trimL (l : List Char) : List Char :=
  ((l.dropWhile fun c => c.isWhitespace).reverse.dropWhile fun c => c.isWhitespace).reverse

/-- JavaScript `s.trim()`. -/
def strTrim (s : String) : String :=
  ⟨trimL s.data⟩

/-- Split a character list at every occurrence of the separator character. -/
def splitOnCharL (sep : Char) : List Char → List (List Char)
  | [] => [[]]
  | c :: cs =>
    let r := splitOnCharL sep cs
    if c == sep then [] :: r
    else
      match r with
      | [] => [[c]]
      | h :: t => (c :: h) :: t

/-- JavaScript `s.split(sep)` for a one-character separator. -/
def strSplitOnChar (s : String) (sep : Char) : List String :=
  (splitOnCharL sep s.data).map fun l => ⟨l⟩

/-- Embeds `isAuthError` (line 13): the argument is the combined stringified
form `err.toString() + (typeof err === "object" ? JSON.stringify(err) : "")`
of the caught error. -/
def isAuthError (errStr : String) : Bool :=
  let str := toLowerStr errStr
  strContains str "403" || strContains str "permission_denied" ||
    strContains str "permission denied" || strContains str "not found"

/-! ## Model responses -/

/-- The `inlineData` field of a response part. -/
structure InlineData where
  mimeType : String
  data : String
deriving DecidableEq

/-- One part of a request or of a model response. -/
structure Part where
  text : Option String := none
  inlineData : Option InlineData := none
deriving DecidableEq

/-- The JavaScript loop over `response.candidates[0].content.parts` that picks
the first part carrying `inlineData` (e.g. lines 1469-1476). -/
def firstInlineData : List Part → Option InlineData
  | [] => none
  | p :: ps =>
    match p.inlineData with
    | some d => some d
    | none => firstInlineData ps

/-- The value of `generatedBase64` after the extraction loop: `parts?` is
`response.candidates?.[0]?.content?.parts` (absent chains give `none`). -/
def extractGenerated (parts? : Option (List Part)) : Option String :=
  match parts? with
  | none => none
  | some ps =>
    match firstInlineData ps with
    | none => none
    | some d => some d.data

/-- Outcome of an image-generation call: either the optional parts list of the
response, or a thrown error carried as its stringified form. -/
inductive GenOutcome where
  | ok (parts? : Option (List Part))
  | err (errStr : String)
deriving DecidableEq

/-- Outcome of a text call: either `response.text` (possibly absent), or a
thrown error carried as its stringified form. -/
inductive TextOutcome where
  | ok (text? : Option String)
  | err (errStr : String)
deriving DecidableEq

/-! ## Data model of the main App component -/

/-- History entries (interface `HistoryItem`, line 1070). -/
structure HistoryItem where
  id : Nat
  original : String
  generated : String
  prompt : String
  timestamp : String
  model : String
deriving DecidableEq

/-- Adaptive-feedback profile (interface `LearningProfile`, line 1079). -/
structure LearningProfile where
  lightingEmphasis : Nat
  blendingStrictness : Nat
  corrections : List String
deriving DecidableEq

/-- The `activeView` union type (line 1106). -/
inductive View where
  | editor
  | advanced
  | gallery
  | brush
  | inspector
  | filters
deriving DecidableEq

/-- The `feedback` union type (line 1109). -/
inductive Feedback where
  | liked
  | disliked
deriving DecidableEq

/-- The `useState` cells of the `App` component (lines 1086-1115). -/
structure AppState where
  hasApiKey : Bool
  originalImage : Option String
  generatedImage : Option String
  prompt : String
  loading : Bool
  enhancing : Bool
  error : String
  blending : Nat
  isCompareMode : Bool
  sceneRefImage : Option String
  analyzingSceneRef : Bool
  selectedModel : String
  activeView : View
  history : List HistoryItem
  feedback : Option Feedback
  showFeedbackOptions : Bool
  learningProfile : LearningProfile
deriving DecidableEq

/-! ## Upload, reset and feedback handlers -/

/-- Embeds `handleFile` (lines 1144-1161).  `fileType` is `file.type`;
`dataUrl` is the base64 data URL that `FileReader.readAsDataURL` delivers to
the `onload` callback on a successful read. -/
def handleFile (s : AppState) (fileType : String) (dataUrl : String) : AppState :=
  if ! strStartsWith fileType "image/" then
    { s with error := "Unsupported file format." }
  else
    { s with originalImage := some dataUrl, generatedImage := none,
             feedback := none, showFeedbackOptions := false,
             error := "", activeView := View.editor }

/-- Embeds `handleReset` (lines 1507-1517). -/
def handleReset (s : AppState) : AppState :=
  { s with originalImage := none, generatedImage := none, sceneRefImage := none,
           prompt := "", error := "", feedback := none,
           showFeedbackOptions := false, isCompareMode := false,
           activeView := View.editor }

/-- Embeds `loadFromHistory` (lines 1519-1524). -/
def loadFromHistory (s : AppState) (item : HistoryItem) : AppState :=
  { s with originalImage := some item.original, generatedImage := some item.generated,
           prompt := item.prompt, activeView := View.editor }

/-- Correction string recorded for the `lighting` dislike reason (line 1217). -/
def lightingCorrection : String :=
  "User complained about bad lighting integration previously. FORCE Color Grading and Light Matching."

/-- Correction string recorded for the `cutout` dislike reason (line 1220). -/
def cutoutCorrection : String :=
  "User complained about artificial edges. IMPROVE Edge Blending and Alpha Matting."

/-- Correction string recorded for the `fake` dislike reason (line 1223). -/
def fakeCorrection : String :=
  "User complained result looked fake. INCREASE Photorealism and Texture details."

/-- The `newCorrection` string chosen by `handleDislike` for a reason. -/
def correctionFor (reason : String) : String :=
  if reason == "lighting" then lightingCorrection
  else if reason == "cutout" then cutoutCorrection
  else if reason == "fake" then fakeCorrection
  else ""

/-- Embeds `handleDislike` (lines 1209-1231): `{...learningProfile}` copies
the profile, the chosen branch bumps a counter and picks the correction
string, and `push` appends the correction only when it is not yet present. -/
def handleDislike (s : AppState) (reason : String) : AppState :=
  let s1 := { s with feedback := some Feedback.disliked, showFeedbackOptions := false }
  let newCorrection := correctionFor reason
  let p0 := s.learningProfile
  let p1 :=
    if reason == "lighting" then { p0 with lightingEmphasis := p0.lightingEmphasis + 1 }
    else if reason == "cutout" then { p0 with blendingStrictness := p0.blendingStrictness + 1 }
    else p0
  let p2 :=
    if newCorrection != "" && ! (p1.corrections.contains newCorrection) then
      { p1 with corrections := p1.corrections ++ [newCorrection] }
    else p1
  { s1 with learningProfile := p2 }

/-! ## Request construction for generateNewBackground -/

/-- JavaScript `dataUrl.split(",")[1]`: the base64 payload of a data URL. -/
def b64Payload (dataUrl : String) : String :=
  (strSplitOnChar dataUrl ',').getD 1 ""

/-- JavaScript `dataUrl.split(";")[0].split(":")[1]`: the MIME type of a data
URL. -/
def mimeOf (dataUrl : String) : String :=
  (strSplitOnChar ((strSplitOnChar dataUrl ';').getD 0 "") ':').getD 1 ""

/-- The `blendingInstruction` computed at lines 1426-1433. -/
def blendingInstruction (blending : Nat) : String :=
  if blending < 30 then
    "Keep original subject lighting and colors strictly. Minimal blending with background. Cutout aesthetic."
  else if blending > 70 then
    "Aggressive blending. Heavily relight and color-grade the subject to fully immerse them in the new atmosphere. Modify subject lighting significantly."
  else
    "Balanced blending. Relight subject naturally to match the environment."

/-- The `adaptiveInstructions` computed at lines 1421-1424 from
`learningProfile.corrections.join(". ")`. -/
def adaptiveInstructions (lp : LearningProfile) : String :=
  if lp.corrections.length > 0 then
    "ADAPTIVE LEARNING: " ++ String.intercalate ". " lp.corrections
  else ""

/-- Text of the background-replacement template literal before the user
prompt (lines 1438-1441). -/
def bgPromptPre : String :=
  "\n        TASK: Professional Background Replacement.\n        STYLE: High-end commercial photography, clean, sharp.\n        INSTRUCTION: Keep the subject structure. Replace background with: \""

/-- Text of the background-replacement template literal after the user prompt
(lines 1441-1445). -/
def bgPromptPost (blending : Nat) (lp : LearningProfile) : String :=
  "\".\n        BLENDING: " ++ blendingInstruction blending ++ " (Strength: " ++
    toString blending ++ "/100)\n        TECHNICAL: Seamless compositing.\n        " ++
    adaptiveInstructions lp ++ "\n      "

/-- The full background-replacement prompt (`fullPrompt`, lines 1438-1445). -/
def bgFullPrompt (p : String) (blending : Nat) (lp : LearningProfile) : String :=
  bgPromptPre ++ (p ++ bgPromptPost blending lp)

/-- The sentence appended to the text part when a scene reference image is
attached (line 1458). -/
def bgRefSuffix : String :=
  " Use the second image provided as a strict visual reference for the background style, lighting, and composition."

/-- The `contentsParts` array sent by `generateNewBackground`
(lines 1447-1459): text part, source image part, and optionally the scene
reference image part with the amended text. -/
def bgContentsParts (s : AppState) (orig : String) : List Part :=
  let fullPrompt := bgFullPrompt s.prompt s.blending s.learningProfile
  match s.sceneRefImage with
  | none =>
    [{ text := some fullPrompt },
     { inlineData := some { mimeType := mimeOf orig, data := b64Payload orig } }]
  | some ref =>
    [{ text := some (fullPrompt ++ bgRefSuffix) },
     { inlineData := some { mimeType := mimeOf orig, data := b64Payload orig } },
     { inlineData := some { mimeType := mimeOf ref, data := b64Payload ref } }]

/-! ## Generation operations -/

/-- Stringified form of the locally thrown `new Error("No image generated.")`
as seen by the catch block: `toString()` plus `JSON.stringify` of an `Error`
object (which is `\x7b\x7d`). -/
def noImageErrStr : String := "Error: No image generated.\x7b\x7d"

/-- The shared shape of the catch blocks: auth errors drop the API key,
anything else shows the operation's message. -/
def catchUpdate (s : AppState) (errStr msg : String) : AppState :=
  if isAuthError errStr then { s with hasApiKey := false }
  else { s with error := msg }

/-- The state updates on entry of `applyFilter` and `generateWithMask`
(`setLoading(true); setError("")`). -/
def opEntry (s : AppState) : AppState :=
  { s with loading := true, error := "" }

/-- The state updates on entry of `generateNewBackground` (lines 1411-1414). -/
def bgEntry (s : AppState) : AppState :=
  { s with loading := true, error := "", feedback := none, showFeedbackOptions := false }

/-- The `finally` block shared by all three generation operations. -/
def opFinally (s : AppState) : AppState :=
  { s with loading := false }

/-- Embeds `applyFilter` (lines 1264-1332).  `o` is the outcome of the model
call, `now` is `Date.now()`, `timeStr` is `toLocaleTimeString()`. -/
def applyFilter (s : AppState) (filterPrompt : String) (o : GenOutcome)
    (now : Nat) (timeStr : String) : AppState :=
  match s.originalImage with
  | none => s
  | some orig =>
    let s1 := opEntry s
    match o with
    | GenOutcome.err e => opFinally (catchUpdate s1 e "Failed to apply filter.")
    | GenOutcome.ok parts? =>
      match extractGenerated parts? with
      | some gb =>
        let newImage := "data:image/png;base64," ++ gb
        opFinally { s1 with
          generatedImage := some newImage,
          history := { id := now, original := orig, generated := newImage,
                       prompt := "Filter: " ++ filterPrompt, timestamp := timeStr,
                       model := s.selectedModel } :: s1.history,
          activeView := View.editor }
      | none => opFinally (catchUpdate s1 noImageErrStr "Failed to apply filter.")

/-- Embeds `generateWithMask` (lines 1334-1407). -/
def generateWithMask (s : AppState) (maskPrompt : String) (o : GenOutcome)
    (now : Nat) (timeStr : String) : AppState :=
  match s.originalImage with
  | none => s
  | some orig =>
    let s1 := opEntry s
    match o with
    | GenOutcome.err e => opFinally (catchUpdate s1 e "Error generating edit. Please try again.")
    | GenOutcome.ok parts? =>
      match extractGenerated parts? with
      | some gb =>
        let newImage := "data:image/png;base64," ++ gb
        opFinally { s1 with
          generatedImage := some newImage,
          history := { id := now, original := orig, generated := newImage,
                       prompt := maskPrompt, timestamp := timeStr,
                       model := s.selectedModel } :: s1.history,
          activeView := View.editor }
      | none => opFinally (catchUpdate s1 noImageErrStr "Error generating edit. Please try again.")

/-- Embeds `generateNewBackground` (lines 1409-1505). -/
def generateNewBackground (s : AppState) (o : GenOutcome)
    (now : Nat) (timeStr : String) : AppState :=
  match s.originalImage with
  | none => s
  | some orig =>
    if strTrim s.prompt == "" then s
    else
      let s1 := bgEntry s
      match o with
      | GenOutcome.err e => opFinally (catchUpdate s1 e "Error generating image. Please try again.")
      | GenOutcome.ok parts? =>
        match extractGenerated parts? with
        | some gb =>
          let newImage := "data:image/png;base64," ++ gb
          opFinally { s1 with
            generatedImage := some newImage,
            history := { id := now, original := orig, generated := newImage,
                         prompt := s.prompt, timestamp := timeStr,
                         model := s.selectedModel } :: s1.history }
        | none => opFinally (catchUpdate s1 noImageErrStr "Error generating image. Please try again.")

/-- Embeds `enhancePrompt` (lines 1233-1262). -/
def enhancePrompt (s : AppState) (o : TextOutcome) : AppState :=
  if strTrim s.prompt == "" then s
  else
    let s1 := { s with enhancing := true, error := "" }
    let finish := fun (s2 : AppState) => { s2 with enhancing := false }
    match o with
    | TextOutcome.err e =>
      finish (if isAuthError e then { s1 with hasApiKey := false }
              else { s1 with error := "Failed to enhance prompt." })
    | TextOutcome.ok t? =>
      finish (match t? with
        | some t => if t == "" then s1 else { s1 with prompt := strTrim t }
        | none => s1)

/-- Embeds `analyzeSceneRef` (lines 1176-1207): non-auth errors are only
logged, auth errors drop the API key. -/
def analyzeSceneRef (s : AppState) (o : TextOutcome) : AppState :=
  let s1 := { s with analyzingSceneRef := true }
  let finish := fun (s2 : AppState) => { s2 with analyzingSceneRef := false }
  match o with
  | TextOutcome.err e =>
    finish (if isAuthError e then { s1 with hasApiKey := false } else s1)
  | TextOutcome.ok t? =>
    finish (match t? with
      | some t => if t == "" then s1 else { s1 with prompt := strTrim t }
      | none => s1)

/-! ## AdvancedCanvas: node graph and zoom -/

/-- The `status` union of `NodeData` (line 43). -/
inductive NodeStatus where
  | idle
  | loading
  | complete
deriving DecidableEq

/-- The `type` union of `Node` (line 50). -/
inductive NodeType where
  | source
  | generator
deriving DecidableEq

/-- Interface `NodeData` (lines 40-46). -/
structure NodeData where
  image : Option String
  prompt : String
  status : NodeStatus
  result : Option String
  model : String
deriving DecidableEq

/-- Interface `Node` (lines 48-55). -/
structure Node where
  id : String
  type : NodeType
  x : ℚ
  y : ℚ
  parentId : Option String := none
  data : NodeData
deriving DecidableEq

/-- Embeds `updateNodeData` (lines 229-231); the `Partial<NodeData>` merge is
represented by the update function `f`. -/
def updateNodeData (nodes : List Node) (nodeId : String) (f : NodeData → NodeData) :
    List Node :=
  nodes.map fun n => if n.id == nodeId then { n with data := f n.data } else n

/-- Embeds `runGenerator` of `AdvancedCanvas` (lines 242-303) together with
the `onAuthError` prop the `App` passes (`() => setHasApiKey(false)`,
line 1581).  Returns the new node list and whether `onAuthError` was
invoked. -/
def runGenerator (nodes : List Node) (nodeId : String) (o : GenOutcome) :
    List Node × Bool :=
  match nodes.find? (fun n => n.id == nodeId) with
  | none => (nodes, false)
  | some node =>
    match node.parentId with
    | none => (nodes, false)
    | some pid =>
      match nodes.find? (fun n => n.id == pid) with
      | none => (nodes, false)
      | some parent =>
        let sourceImage :=
          match parent.data.result with
          | some r => some r
          | none => parent.data.image
        match sourceImage with
        | none => (nodes, false)
        | some _ =>
          let ns1 := updateNodeData nodes nodeId fun d => { d with status := NodeStatus.loading }
          match o with
          | GenOutcome.err e =>
            (updateNodeData ns1 nodeId fun d => { d with status := NodeStatus.idle },
             isAuthError e)
          | GenOutcome.ok parts? =>
            match extractGenerated parts? with
            | some gb =>
              (updateNodeData ns1 nodeId fun d =>
                 { d with status := NodeStatus.complete,
                          result := some ("data:image/png;base64," ++ gb) },
               false)
            | none =>
              (updateNodeData ns1 nodeId fun d => { d with status := NodeStatus.idle },
               false)

/-- Composition of `runGenerator` with the `App` wiring: the canvas's
`onAuthError` callback clears the app-level `hasApiKey` flag. -/
def appRunGenerator (s : AppState) (nodes : List Node) (nodeId : String)
    (o : GenOutcome) : AppState × List Node :=
  let r := runGenerator nodes nodeId o
  (if r.2 then { s with hasApiKey := false } else s, r.1)

/-- The `zoomSensitivity` constant of `handleWheel` (line 171). -/
def zoomSensitivity : ℚ := 0.001

/-- The ctrl/meta wheel-zoom branch of `handleWheel` (line 172):
`Math.min(Math.max(0.1, scale - e.deltaY * zoomSensitivity), 3)`. -/
def handleWheelZoom (scale deltaY : ℚ) : ℚ :=
  min (max 0.1 (scale - deltaY * zoomSensitivity)) 3

/-- The zoom-out toolbar button (line 317): `Math.max(0.1, s - 0.1)`. -/
def zoomOutStep (scale : ℚ) : ℚ :=
  max 0.1 (scale - 0.1)

/-- The zoom-in toolbar button (line 319): `Math.min(3, s + 0.1)`. -/
def zoomInStep (scale : ℚ) : ℚ :=
  min 3 (scale + 0.1)

/-- One zoom action on the canvas scale. -/
inductive ZoomStep : ℚ → ℚ → Prop where
  | wheel (scale deltaY : ℚ) : ZoomStep scale (handleWheelZoom scale deltaY)
  | out (scale : ℚ) : ZoomStep scale (zoomOutStep scale)
  | zin (scale : ℚ) : ZoomStep scale (zoomInStep scale)

/-- Scales reachable from the initial `useState(1)` (line 149) by zoom
actions. -/
def ZoomReachable (scale : ℚ) : Prop :=
  Relation.ReflTransGen ZoomStep 1 scale

/-! ## PromptInspector and FilterStudio -/

/-- The `useState` cells of `PromptInspector` (lines 957-959). -/
structure InspectorState where
  jsonResult : Option String
  loading : Bool
  copied : Bool
deriving DecidableEq

/-- Embeds `analyzeImage` of `PromptInspector` (lines 966-999) together with
the `onAuthError` prop the `App` passes (line 1595).  Returns the new
component state and whether `onAuthError` was invoked. -/
def analyzeImage (st : InspectorState) (o : TextOutcome) : InspectorState × Bool :=
  let s1 := { st with loading := true, jsonResult := none }
  let finish := fun (s2 : InspectorState) => { s2 with loading := false }
  let failMsg : String := "\x7b\n  \"error\": \"Failed to analyze image.\"\n\x7d"
  let emptyJson : String := "\x7b\x7d"
  match o with
  | TextOutcome.err e =>
    if isAuthError e then (finish s1, true)
    else (finish { s1 with jsonResult := some failMsg }, false)
  | TextOutcome.ok t? =>
    let res :=
      match t? with
      | some t => if t == "" then emptyJson else t
      | none => emptyJson
    (finish { s1 with jsonResult := some res }, false)

/-- Composition of `analyzeImage` with the `App` wiring: the inspector's
`onAuthError` callback clears the app-level `hasApiKey` flag (line 1595). -/
def appAnalyzeImage (s : AppState) (ist : InspectorState) (o : TextOutcome) :
    AppState × InspectorState :=
  let r := analyzeImage ist o
  (if r.2 then { s with hasApiKey := false } else s, r.1)

/-- The `useState` cells of `FilterStudio` relevant to its model calls. -/
structure FilterStudioState where
  filterPrompt : String
  enhancing : Bool
  refImage : Option String
  analyzingRef : Bool
deriving DecidableEq

/-- Embeds `handleEnhance` of `FilterStudio` (lines 754-771): the catch block
only logs (`console.error`), so errors have no effect beyond the `finally`
reset of `enhancing`. -/
def fsHandleEnhance (st : FilterStudioState) (o : TextOutcome) : FilterStudioState :=
  if strTrim st.filterPrompt == "" then st
  else
    let s1 := { st with enhancing := true }
    let finish := fun (s2 : FilterStudioState) => { s2 with enhancing := false }
    match o with
    | TextOutcome.err _ => finish s1
    | TextOutcome.ok t? =>
      finish (match t? with
        | some t => if t == "" then s1 else { s1 with filterPrompt := strTrim t }
        | none => s1)

/-- Composition of `fsHandleEnhance` with the `App` wiring: `FilterStudio`
receives no `onAuthError` prop (line 1598-1604), so the app state is
untouched by its enhance operation. -/
def appFsHandleEnhance (s : AppState) (st : FilterStudioState) (o : TextOutcome) :
    AppState × FilterStudioState :=
  (s, fsHandleEnhance st o)

/-- Embeds `analyzeRefStyle` of `FilterStudio` (lines 786-812): the catch
block only logs (`console.error`), so errors have no effect beyond the
`finally` reset of `analyzingRef`; a successful response with text stores
the trimmed style keywords as the filter prompt. -/
def fsAnalyzeRefStyle (st : FilterStudioState) (o : TextOutcome) : FilterStudioState :=
  let s1 := { st with analyzingRef := true }
  let finish := fun (s2 : FilterStudioState) => { s2 with analyzingRef := false }
  match o with
  | TextOutcome.err _ => finish s1
  | TextOutcome.ok t? =>
    finish (match t? with
      | some t => if t == "" then s1 else { s1 with filterPrompt := strTrim t }
      | none => s1)

/-- Composition of `fsAnalyzeRefStyle` with the `App` wiring: like the
enhance helper, the style analysis has no `onAuthError` prop, so the app
state is untouched. -/
def appFsAnalyzeRefStyle (s : AppState) (st : FilterStudioState) (o : TextOutcome) :
    AppState × FilterStudioState :=
  (s, fsAnalyzeRefStyle st o)

/-! ## Sample states for witnesses and counterexamples -/

/-- A representative app state: image uploaded, prompt typed, key connected. -/
def sampleState : AppState :=
  { hasApiKey := true, originalImage := some "data:image/png;base64,QUJD",
    generatedImage := none, prompt := "a beach at sunset", loading := false,
    enhancing := false, error := "", blending := 50, isCompareMode := false,
    sceneRefImage := none, analyzingSceneRef := false, selectedModel := "nano-banana-1",
    activeView := View.editor, history := [], feedback := none,
    showFeedbackOptions := false,
    learningProfile := { lightingEmphasis := 0, blendingStrictness := 0, corrections := [] } }

/-- A sample response parts list carrying one inline image. -/
def sampleParts : List Part :=
  [{ inlineData := some { mimeType := "image/png", data := "WFla" } }]

/-! ## Helper lemmas -/

/-- The corrections-list update performed by `handleDislike`: append the
reason's correction string when it is new, otherwise leave the list alone. -/
lemma handleDislike_corrections_eq (s : AppState) (reason : String) :
    (handleDislike s reason).learningProfile.corrections =
      (if ¬ correctionFor reason = "" ∧
          correctionFor reason ∉ s.learningProfile.corrections then
        s.learningProfile.corrections ++ [correctionFor reason]
      else s.learningProfile.corrections) := by
  unfold handleDislike
  by_cases h1 : reason == "lighting" <;> by_cases h2 : reason == "cutout" <;>
    simp [h1, h2] <;> split <;> rfl

/-- A `handleDislike` step keeps the corrections list duplicate-free. -/
lemma handleDislike_nodup (s : AppState) (reason : String)
    (h : s.learningProfile.corrections.Nodup) :
    (handleDislike s reason).learningProfile.corrections.Nodup := by
  rw [handleDislike_corrections_eq]
  split
  · next hc => simp [List.nodup_append, h, hc.2]
  · exact h

/-- A `lighting` dislike always bumps `lightingEmphasis` by one. -/
lemma handleDislike_lightingEmphasis (s : AppState) :
    (handleDislike s "lighting").learningProfile.lightingEmphasis =
      s.learningProfile.lightingEmphasis + 1 := by
  unfold handleDislike correctionFor
  simp only [show (("lighting" : String) == "lighting") = true from rfl]
  simp only [if_true]
  split <;> rfl

/-- A `cutout` dislike always bumps `blendingStrictness` by one. -/
lemma handleDislike_blendingStrictness (s : AppState) :
    (handleDislike s "cutout").learningProfile.blendingStrictness =
      s.learningProfile.blendingStrictness + 1 := by
  unfold handleDislike correctionFor
  simp only [show (("cutout" : String) == "lighting") = false from rfl,
    show (("cutout" : String) == "cutout") = true from rfl]
  simp only [if_true, Bool.false_eq_true, if_false]
  split <;> rfl

/-! ## Claims -/

/-- C8: `handleReset` clears exactly the per-session editing state (current
image, generated image, scene reference image, prompt, error, feedback,
feedback-options flag, compare mode) and returns the view to the editor,
while leaving the history list, the learning profile, the selected model,
and the blending level unchanged. -/
theorem handleReset_clears_session_state (s : AppState) :
    (handleReset s).originalImage = none ∧
    (handleReset s).generatedImage = none ∧
    (handleReset s).sceneRefImage = none ∧
    (handleReset s).prompt = "" ∧
    (handleReset s).error = "" ∧
    (handleReset s).feedback = none ∧
    (handleReset s).showFeedbackOptions = false ∧
    (handleReset s).isCompareMode = false ∧
    (handleReset s).activeView = View.editor ∧
    (handleReset s).history = s.history ∧
    (handleReset s).learningProfile = s.learningProfile ∧
    (handleReset s).selectedModel = s.selectedModel ∧
    (handleReset s).blending = s.blending :=
  ⟨rfl, rfl, rfl, rfl, rfl, rfl, rfl, rfl, rfl, rfl, rfl, rfl, rfl⟩

/-- C7: `handleFile` rejects non-image MIME types with the fixed error
message and no other state change, and on an image MIME type stores the
uploaded data URL as the current image, clears the generated image, the
feedback state and the error, and switches the view to the editor. -/
theorem handleFile_mime_gate (s : AppState) (fileType dataUrl : String) :
    (strStartsWith fileType "image/" = false →
      handleFile s fileType dataUrl = { s with error := "Unsupported file format." }) ∧
    (strStartsWith fileType "image/" = true →
      handleFile s fileType dataUrl =
        { s with originalImage := some dataUrl, generatedImage := none,
                 feedback := none, showFeedbackOptions := false,
                 error := "", activeView := View.editor }) := by
  constructor <;> intro h <;> simp [handleFile, h]

/-- Witness for C7 at concrete inputs. -/
theorem handleFile_mime_gate_witness :
    handleFile sampleState "text/plain" "data:text/plain;base64,QQ==" =
      { sampleState with error := "Unsupported file format." } ∧
    handleFile sampleState "image/jpeg" "data:image/jpeg;base64,QQ==" =
      { sampleState with originalImage := some "data:image/jpeg;base64,QQ==",
                         generatedImage := none, feedback := none,
                         showFeedbackOptions := false, error := "",
                         activeView := View.editor } :=
  ⟨(handleFile_mime_gate sampleState "text/plain" "data:text/plain;base64,QQ==").1 (by decide),
   (handleFile_mime_gate sampleState "image/jpeg" "data:image/jpeg;base64,QQ==").2 (by decide)⟩

/-- C9: every zoom scale reachable from the initial scale 1 by wheel zoom,
the zoom-out button, or the zoom-in button stays within `[0.1, 3]`. -/
theorem zoom_scale_bounds (x : ℚ) (h : ZoomReachable x) :
    (0.1 : ℚ) ≤ x ∧ x ≤ 3 := by
  induction h with
  | refl => norm_num
  | tail _ step ih =>
    cases step with
    | wheel deltaY =>
      unfold handleWheelZoom
      constructor
      · exact le_min (le_max_left _ _) (by norm_num)
      · exact min_le_right _ _
    | out =>
      unfold zoomOutStep
      constructor
      · exact le_max_left _ _
      · exact max_le (by norm_num) (by linarith [ih.2])
    | zin =>
      unfold zoomInStep
      constructor
      · exact le_min (by norm_num) (by linarith [ih.1])
      · exact min_le_left _ _

/-- Witness for C9: one zoom-out from the initial scale. -/
theorem zoom_scale_bounds_witness :
    (0.1 : ℚ) ≤ zoomOutStep 1 ∧ zoomOutStep 1 ≤ 3 :=
  zoom_scale_bounds (zoomOutStep 1)
    (Relation.ReflTransGen.single (ZoomStep.out 1))

/-- C10: recording a dislike is idempotent on the corrections list — any
number of `handleDislike` calls with one reason keeps the list
duplicate-free (each correction string occurs at most once) — while the
`lighting` and `cutout` counters grow by one on every call. -/
theorem handleDislike_idempotent_corrections (s : AppState) (reason : String) (n : ℕ)
    (h : s.learningProfile.corrections.Nodup) :
    ((fun st => handleDislike st reason)^[n] s).learningProfile.corrections.Nodup ∧
    (reason = "lighting" →
      ((fun st => handleDislike st reason)^[n] s).learningProfile.lightingEmphasis =
        s.learningProfile.lightingEmphasis + n) ∧
    (reason = "cutout" →
      ((fun st => handleDislike st reason)^[n] s).learningProfile.blendingStrictness =
        s.learningProfile.blendingStrictness + n) := by
  induction n generalizing s with
  | zero => exact ⟨h, fun _ => rfl, fun _ => rfl⟩
  | succ n ih =>
    rw [Function.iterate_succ_apply]
    obtain ⟨ihn, ihl, ihc⟩ := ih (handleDislike s reason) (handleDislike_nodup s reason h)
    refine ⟨ihn, ?_, ?_⟩
    · intro hr
      subst hr
      rw [ihl rfl, handleDislike_lightingEmphasis]
      omega
    · intro hr
      subst hr
      rw [ihc rfl, handleDislike_blendingStrictness]
      omega

/-- Witness for C10: two `lighting` dislikes from the sample state. -/
theorem handleDislike_idempotent_corrections_witness :
    sampleState.learningProfile.corrections.Nodup ∧
    ((fun st => handleDislike st "lighting")^[2] sampleState).learningProfile.corrections.Nodup ∧
    ((fun st => handleDislike st "lighting")^[2] sampleState).learningProfile.lightingEmphasis =
      sampleState.learningProfile.lightingEmphasis + 2 :=
  ⟨by decide,
   (handleDislike_idempotent_corrections sampleState "lighting" 2 (by decide)).1,
   (handleDislike_idempotent_corrections sampleState "lighting" 2 (by decide)).2.1 rfl⟩

/-- C1: all three in-studio generation operations write to the same shared
history field, and every successful run prepends exactly one record carrying
the original image, the generated image, the prompt, the timestamp and the
model, so the history is ordered newest-first. -/
theorem generation_ops_prepend_shared_history
    (s : AppState) (orig gb : String) (parts? : Option (List Part))
    (now : Nat) (timeStr fp mp : String)
    (horig : s.originalImage = some orig)
    (hgb : extractGenerated parts? = some gb)
    (hp : ¬ strTrim s.prompt = "") :
    (generateNewBackground s (GenOutcome.ok parts?) now timeStr).history =
      { id := now, original := orig, generated := "data:image/png;base64," ++ gb,
        prompt := s.prompt, timestamp := timeStr, model := s.selectedModel } :: s.history ∧
    (applyFilter s fp (GenOutcome.ok parts?) now timeStr).history =
      { id := now, original := orig, generated := "data:image/png;base64," ++ gb,
        prompt := "Filter: " ++ fp, timestamp := timeStr, model := s.selectedModel } :: s.history ∧
    (generateWithMask s mp (GenOutcome.ok parts?) now timeStr).history =
      { id := now, original := orig, generated := "data:image/png;base64," ++ gb,
        prompt := mp, timestamp := timeStr, model := s.selectedModel } :: s.history := by
  have hp' : (strTrim s.prompt == "") = false := by simpa using hp
  refine ⟨?_, ?_, ?_⟩ <;>
    simp [generateNewBackground, applyFilter, generateWithMask, horig, hgb, hp',
      bgEntry, opEntry, opFinally]

/-- Witness for C1 at a concrete state and response. -/
theorem generation_ops_prepend_shared_history_witness :
    sampleState.originalImage = some "data:image/png;base64,QUJD" ∧
    extractGenerated (some sampleParts) = some "WFla" ∧
    ¬ strTrim sampleState.prompt = "" ∧
    (generateNewBackground sampleState (GenOutcome.ok (some sampleParts)) 7 "12:00").history =
      { id := 7, original := "data:image/png;base64,QUJD",
        generated := "data:image/png;base64,WFla", prompt := sampleState.prompt,
        timestamp := "12:00", model := sampleState.selectedModel } :: sampleState.history :=
  ⟨rfl, rfl, by decide,
   (generation_ops_prepend_shared_history sampleState "data:image/png;base64,QUJD" "WFla"
      (some sampleParts) 7 "12:00" "noir" "add a hat" rfl rfl (by decide)).1⟩

/-- C6: every generation operation raises the loading flag on entry and on
every exit path — success, missing image in the response, auth error, other
error — the `finally` block lowers it again, so the flag is false after the
operation completes. -/
theorem loading_flag_cleared
    (s : AppState) (o : GenOutcome) (orig : String) (now : Nat) (timeStr fp mp : String)
    (horig : s.originalImage = some orig)
    (hp : ¬ strTrim s.prompt = "") :
    (bgEntry s).loading = true ∧ (opEntry s).loading = true ∧
    (generateNewBackground s o now timeStr).loading = false ∧
    (applyFilter s fp o now timeStr).loading = false ∧
    (generateWithMask s mp o now timeStr).loading = false := by
  have hp' : (strTrim s.prompt == "") = false := by simpa using hp
  refine ⟨rfl, rfl, ?_, ?_, ?_⟩ <;>
  cases o with
  | err e =>
    simp [generateNewBackground, applyFilter, generateWithMask, horig, hp', opFinally]
  | ok parts? =>
    cases hg : extractGenerated parts? <;>
      simp [generateNewBackground, applyFilter, generateWithMask, horig, hp', hg, opFinally]

/-- Witness for C6 at a concrete state and outcome. -/
theorem loading_flag_cleared_witness :
    sampleState.originalImage = some "data:image/png;base64,QUJD" ∧
    ¬ strTrim sampleState.prompt = "" ∧
    (generateNewBackground sampleState (GenOutcome.err "boom") 7 "12:00").loading = false :=
  ⟨rfl, by decide,
   (loading_flag_cleared sampleState (GenOutcome.err "boom") "data:image/png;base64,QUJD"
      7 "12:00" "noir" "add a hat" rfl (by decide)).2.2.1⟩

/-- A state whose last result the user liked: feedback is set. -/
def likedState : AppState :=
  { sampleState with feedback := some Feedback.liked }

/-- C3 counterexample: a failed `generateNewBackground` does more than set
the error message and clear the loading flag — it also clears the feedback
state, so the claim that the failed operation has no other effect on state
is false. -/
theorem nonauth_error_no_other_effect_cex :
    generateNewBackground likedState (GenOutcome.err "network failure") 0 "12:00" ≠
      { likedState with error := "Error generating image. Please try again.",
                        loading := false } := by
  decide

/-- C3 (amended): on a non-auth error every generation operation sets its
fixed error message, clears the loading flag, and leaves the original image,
the generated image and the history unchanged; `applyFilter` and
`generateWithMask` change nothing else, while `generateNewBackground`
additionally clears the feedback state on entry. -/
theorem nonauth_error_effects
    (s : AppState) (e orig : String) (now : Nat) (timeStr fp mp : String)
    (horig : s.originalImage = some orig)
    (hp : ¬ strTrim s.prompt = "")
    (hna : isAuthError e = false) :
    applyFilter s fp (GenOutcome.err e) now timeStr =
      { s with error := "Failed to apply filter.", loading := false } ∧
    generateWithMask s mp (GenOutcome.err e) now timeStr =
      { s with error := "Error generating edit. Please try again.", loading := false } ∧
    generateNewBackground s (GenOutcome.err e) now timeStr =
      { s with error := "Error generating image. Please try again.", loading := false,
               feedback := none, showFeedbackOptions := false } := by
  have hp' : (strTrim s.prompt == "") = false := by simpa using hp
  refine ⟨?_, ?_, ?_⟩ <;>
    simp [applyFilter, generateWithMask, generateNewBackground, horig, hp', hna,
      opEntry, bgEntry, opFinally, catchUpdate]

/-- Witness for the amended C3 at a concrete state and error. -/
theorem nonauth_error_effects_witness :
    sampleState.originalImage = some "data:image/png;base64,QUJD" ∧
    ¬ strTrim sampleState.prompt = "" ∧
    isAuthError "network failure" = false ∧
    applyFilter sampleState "noir" (GenOutcome.err "network failure") 7 "12:00" =
      { sampleState with error := "Failed to apply filter.", loading := false } :=
  ⟨rfl, by decide, by decide,
   (nonauth_error_effects sampleState "network failure" "data:image/png;base64,QUJD"
      7 "12:00" "noir" "add a hat" rfl (by decide) (by decide)).1⟩

/-- Test whether a string is a browser object URL: `URL.createObjectURL`
always yields the `blob:` scheme. -/
def isObjectURL (u : String) : Bool :=
  startsWithL u.data ("blob:".data)

/-- Test whether a string is a data URL. -/
def isDataURL (u : String) : Bool :=
  startsWithL u.data ("data:".data)

/-- C5 counterexample: the images the UI state holds are base64 data URLs,
not browser object URLs — the generated image of a successful run and the
stored upload both fail the object-URL test. -/
theorem images_are_object_urls_cex :
    (generateNewBackground sampleState (GenOutcome.ok (some sampleParts)) 7 "12:00").generatedImage =
      some "data:image/png;base64,WFla" ∧
    isObjectURL "data:image/png;base64,WFla" = false ∧
    (handleFile sampleState "image/jpeg" "data:image/jpeg;base64,QQ==").originalImage =
      some "data:image/jpeg;base64,QQ==" ∧
    isObjectURL "data:image/jpeg;base64,QQ==" = false := by
  refine ⟨by decide, rfl, rfl, rfl⟩

/-- C5 (amended): the images the UI state holds are in-memory base64 data
URLs — a successful generation stores a `data:image/png;base64,` URL as the
generated image and in the new history record, and an accepted upload stores
the `FileReader` data URL verbatim; no browser object URL is ever created. -/
theorem images_are_data_urls
    (s : AppState) (orig gb url ft : String) (parts? : Option (List Part))
    (now : Nat) (timeStr : String)
    (horig : s.originalImage = some orig)
    (hgb : extractGenerated parts? = some gb)
    (hp : ¬ strTrim s.prompt = "")
    (hft : strStartsWith ft "image/" = true) :
    (generateNewBackground s (GenOutcome.ok parts?) now timeStr).generatedImage =
      some ("data:image/png;base64," ++ gb) ∧
    isDataURL ("data:image/png;base64," ++ gb) = true ∧
    isObjectURL ("data:image/png;base64," ++ gb) = false ∧
    (handleFile s ft url).originalImage = some url := by
  have hp' : (strTrim s.prompt == "") = false := by simpa using hp
  refine ⟨?_, rfl, rfl, ?_⟩
  · simp [generateNewBackground, horig, hgb, hp', bgEntry, opFinally]
  · simp [handleFile, hft]

/-- Witness for the amended C5 at a concrete state. -/
theorem images_are_data_urls_witness :
    (generateNewBackground sampleState (GenOutcome.ok (some sampleParts)) 7 "12:00").generatedImage =
      some ("data:image/png;base64," ++ "WFla") ∧
    isDataURL ("data:image/png;base64," ++ "WFla") = true ∧
    isObjectURL ("data:image/png;base64," ++ "WFla") = false ∧
    (handleFile sampleState "image/jpeg" "data:image/jpeg;base64,QQ==").originalImage =
      some "data:image/jpeg;base64,QQ==" :=
  images_are_data_urls sampleState "data:image/png;base64,QUJD" "WFla"
    "data:image/jpeg;base64,QQ==" "image/jpeg" (some sampleParts) 7 "12:00"
    rfl rfl (by decide) (by decide)

/-- C2: the image pipeline — the uploaded data URL is stored as the current
image, its base64 payload (the part after the comma) plus a text part
containing the user's prompt form the forwarded request, a response with an
inline-image part sets the generated image to the decoded data URL and
prepends a history record, and a response with no inline-image part leaves
the generated image and the history unchanged. -/
theorem pipeline_roundtrip
    (s : AppState) (orig gb url ft : String)
    (parts1 parts0 : Option (List Part))
    (now : Nat) (timeStr : String)
    (horig : s.originalImage = some orig)
    (hft : strStartsWith ft "image/" = true)
    (hp : ¬ strTrim s.prompt = "")
    (hgb : extractGenerated parts1 = some gb)
    (h0 : extractGenerated parts0 = none) :
    (handleFile s ft url).originalImage = some url ∧
    (bgContentsParts s orig).get? 1 =
      some { inlineData := some { mimeType := mimeOf orig, data := b64Payload orig } } ∧
    (∃ a b, (bgContentsParts s orig).get? 0 = some { text := some (a ++ (s.prompt ++ b)) }) ∧
    (generateNewBackground s (GenOutcome.ok parts1) now timeStr).generatedImage =
      some ("data:image/png;base64," ++ gb) ∧
    (generateNewBackground s (GenOutcome.ok parts1) now timeStr).history =
      { id := now, original := orig, generated := "data:image/png;base64," ++ gb,
        prompt := s.prompt, timestamp := timeStr, model := s.selectedModel } :: s.history ∧
    (generateNewBackground s (GenOutcome.ok parts0) now timeStr).generatedImage =
      s.generatedImage ∧
    (generateNewBackground s (GenOutcome.ok parts0) now timeStr).history = s.history := by
  have hp' : (strTrim s.prompt == "") = false := by simpa using hp
  have hni : isAuthError noImageErrStr = false := by decide
  refine ⟨?_, ?_, ?_, ?_, ?_, ?_, ?_⟩
  · simp [handleFile, hft]
  · cases hsr : s.sceneRefImage <;> simp [bgContentsParts, hsr]
  · cases hsr : s.sceneRefImage with
    | none =>
      exact ⟨bgPromptPre, bgPromptPost s.blending s.learningProfile,
        by simp [bgContentsParts, hsr, bgFullPrompt]⟩
    | some ref =>
      refine ⟨bgPromptPre, bgPromptPost s.blending s.learningProfile ++ bgRefSuffix, ?_⟩
      simp [bgContentsParts, hsr, bgFullPrompt, String.append_assoc]
  · simp [generateNewBackground, horig, hgb, hp', bgEntry, opFinally]
  · simp [generateNewBackground, horig, hgb, hp', bgEntry, opFinally]
  · simp [generateNewBackground, horig, h0, hp', hni, bgEntry, opFinally, catchUpdate]
  · simp [generateNewBackground, horig, h0, hp', hni, bgEntry, opFinally, catchUpdate]

/-- Witness for C2 at a concrete state, upload and responses. -/
theorem pipeline_roundtrip_witness :
    (handleFile sampleState "image/jpeg" "data:image/jpeg;base64,QQ==").originalImage =
      some "data:image/jpeg;base64,QQ==" ∧
    (bgContentsParts sampleState "data:image/png;base64,QUJD").get? 1 =
      some { inlineData := some { mimeType := mimeOf "data:image/png;base64,QUJD",
                                  data := b64Payload "data:image/png;base64,QUJD" } } ∧
    (∃ a b, (bgContentsParts sampleState "data:image/png;base64,QUJD").get? 0 =
      some { text := some (a ++ (sampleState.prompt ++ b)) }) ∧
    (generateNewBackground sampleState (GenOutcome.ok (some sampleParts)) 7 "12:00").generatedImage =
      some ("data:image/png;base64," ++ "WFla") ∧
    (generateNewBackground sampleState (GenOutcome.ok (some sampleParts)) 7 "12:00").history =
      { id := 7, original := "data:image/png;base64,QUJD",
        generated := "data:image/png;base64," ++ "WFla", prompt := sampleState.prompt,
        timestamp := "12:00", model := sampleState.selectedModel } :: sampleState.history ∧
    (generateNewBackground sampleState (GenOutcome.ok (some [{ text := some "no image" }]))
        7 "12:00").generatedImage = sampleState.generatedImage ∧
    (generateNewBackground sampleState (GenOutcome.ok (some [{ text := some "no image" }]))
        7 "12:00").history = sampleState.history :=
  pipeline_roundtrip sampleState "data:image/png;base64,QUJD" "WFla"
    "data:image/jpeg;base64,QQ==" "image/jpeg" (some sampleParts)
    (some [{ text := some "no image" }]) 7 "12:00"
    rfl (by decide) (by decide) rfl rfl

/-- A stringified auth-style error as produced by the API client. -/
def authErrSample : String := "ApiError: 403 PERMISSION_DENIED"

/-- A FilterStudio state with a non-empty style prompt. -/
def fsSample : FilterStudioState :=
  { filterPrompt := "noir", enhancing := false, refImage := none, analyzingRef := false }

/-- A fresh PromptInspector state. -/
def istSample : InspectorState :=
  { jsonResult := none, loading := false, copied := false }

/-- A source node that already produced a result. -/
def srcNodeSample : Node :=
  { id := "root", type := NodeType.source, x := 100, y := 200, parentId := none,
    data := { image := some "data:image/png;base64,QUJD", prompt := "",
              status := NodeStatus.idle, result := some "data:image/png;base64,UkVT",
              model := "nano-banana-1" } }

/-- A generator node whose parent is the sample source node. -/
def genNodeSample : Node :=
  { id := "node-1", type := NodeType.generator, x := 550, y := 200,
    parentId := some "root",
    data := { image := none, prompt := "make it night",
              status := NodeStatus.idle, result := none, model := "nano-banana-1" } }

/-- A two-node canvas for the gate witness. -/
def sampleNodes : List Node := [srcNodeSample, genNodeSample]

/-- C4 counterexample: `FilterStudio`'s `handleEnhance` calls the external
model but swallows every error, so an auth-style error there leaves the
app-level `hasApiKey` flag `true` instead of clearing it. -/
theorem api_key_gate_cex :
    isAuthError authErrSample = true ∧
    sampleState.hasApiKey = true ∧
    (appFsHandleEnhance sampleState fsSample (TextOutcome.err authErrSample)).1.hasApiKey
      = true :=
  ⟨by decide, rfl, rfl⟩

/-- C4 (amended): every model-calling operation wired to the API-key gate —
`generateNewBackground`, `applyFilter`, `generateWithMask`, `enhancePrompt`,
`analyzeSceneRef` in the App, and `runGenerator` / `analyzeImage` through
the `onAuthError` prop — clears `hasApiKey` exactly when the stringified
error contains one of the four auth substrings and leaves it unchanged
otherwise; `FilterStudio`'s enhance and style-analysis helpers, which have
no gate wiring, leave the flag unchanged on every error. -/
theorem api_key_gate
    (s : AppState) (e orig : String) (now : Nat) (timeStr fp mp : String)
    (nodes : List Node) (nodeId pid src : String) (node parent : Node)
    (ist : InspectorState) (fs : FilterStudioState)
    (horig : s.originalImage = some orig)
    (hp : ¬ strTrim s.prompt = "")
    (hfind : nodes.find? (fun n => n.id == nodeId) = some node)
    (hpid : node.parentId = some pid)
    (hfindp : nodes.find? (fun n => n.id == pid) = some parent)
    (hsrc : parent.data.result = some src) :
    (generateNewBackground s (GenOutcome.err e) now timeStr).hasApiKey =
      (if isAuthError e then false else s.hasApiKey) ∧
    (applyFilter s fp (GenOutcome.err e) now timeStr).hasApiKey =
      (if isAuthError e then false else s.hasApiKey) ∧
    (generateWithMask s mp (GenOutcome.err e) now timeStr).hasApiKey =
      (if isAuthError e then false else s.hasApiKey) ∧
    (enhancePrompt s (TextOutcome.err e)).hasApiKey =
      (if isAuthError e then false else s.hasApiKey) ∧
    (analyzeSceneRef s (TextOutcome.err e)).hasApiKey =
      (if isAuthError e then false else s.hasApiKey) ∧
    (appRunGenerator s nodes nodeId (GenOutcome.err e)).1.hasApiKey =
      (if isAuthError e then false else s.hasApiKey) ∧
    (appAnalyzeImage s ist (TextOutcome.err e)).1.hasApiKey =
      (if isAuthError e then false else s.hasApiKey) ∧
    (appFsHandleEnhance s fs (TextOutcome.err e)).1.hasApiKey = s.hasApiKey ∧
    (appFsAnalyzeRefStyle s fs (TextOutcome.err e)).1.hasApiKey = s.hasApiKey := by
  have hp' : (strTrim s.prompt == "") = false := by simpa using hp
  cases ha : isAuthError e <;>
    simp [generateNewBackground, applyFilter, generateWithMask, enhancePrompt,
      analyzeSceneRef, appRunGenerator, runGenerator, appAnalyzeImage, analyzeImage,
      appFsHandleEnhance, appFsAnalyzeRefStyle, horig, hp', ha, hfind, hpid, hfindp,
      hsrc, opEntry, bgEntry, opFinally, catchUpdate]

/-- Witness for the amended C4 at a concrete state, canvas and error. -/
theorem api_key_gate_witness :
    (generateNewBackground sampleState (GenOutcome.err authErrSample) 7 "12:00").hasApiKey =
      (if isAuthError authErrSample then false else sampleState.hasApiKey) ∧
    (applyFilter sampleState "noir" (GenOutcome.err authErrSample) 7 "12:00").hasApiKey =
      (if isAuthError authErrSample then false else sampleState.hasApiKey) ∧
    (generateWithMask sampleState "add a hat" (GenOutcome.err authErrSample) 7 "12:00").hasApiKey =
      (if isAuthError authErrSample then false else sampleState.hasApiKey) ∧
    (enhancePrompt sampleState (TextOutcome.err authErrSample)).hasApiKey =
      (if isAuthError authErrSample then false else sampleState.hasApiKey) ∧
    (analyzeSceneRef sampleState (TextOutcome.err authErrSample)).hasApiKey =
      (if isAuthError authErrSample then false else sampleState.hasApiKey) ∧
    (appRunGenerator sampleState sampleNodes "node-1" (GenOutcome.err authErrSample)).1.hasApiKey =
      (if isAuthError authErrSample then false else sampleState.hasApiKey) ∧
    (appAnalyzeImage sampleState istSample (TextOutcome.err authErrSample)).1.hasApiKey =
      (if isAuthError authErrSample then false else sampleState.hasApiKey) ∧
    (appFsHandleEnhance sampleState fsSample (TextOutcome.err authErrSample)).1.hasApiKey =
      sampleState.hasApiKey ∧
    (appFsAnalyzeRefStyle sampleState fsSample (TextOutcome.err authErrSample)).1.hasApiKey =
      sampleState.hasApiKey :=
  api_key_gate sampleState authErrSample "data:image/png;base64,QUJD" 7 "12:00"
    "noir" "add a hat" sampleNodes "node-1" "root" "data:image/png;base64,UkVT"
    genNodeSample srcNodeSample istSample fsSample
    rfl (by decide) rfl rfl rfl rfl

end ChangerAI
